import Mathlib

/-!
Verification of the context menu widget from
`wezterm-gui/src/termwindow/contextmenu.rs`.

The widget is a flat list of rows (actionable entries or inert
separators) with a selection cursor, pixel hit-testing, viewport-clamped
layout, and a lazily recomputed render cache.

Modelling conventions:
- pixel coordinates (the Rust `f32` values) are modelled as exact
  rationals `ℚ`; the constants `1.2`, `1.5`, `0.75`, `0.5` of the layout
  and hit-test formulas are the rationals `6/5`, `3/2`, `3/4`, `1/2`;
- the opaque `KeyAssignment` action payload is modelled as a `ℕ` tag
  (the widget never inspects it, only forwards it for dispatch);
- the host (`TermWindow`) is modelled by an `Env` of the values the
  widget reads (font cell size, viewport pixel size, whether an active
  pane exists for dispatch) plus an explicit list of `Effect`s for the
  calls the widget makes back into the host;
- the computed visual representation (`Vec<ComputedElement>`) is modelled
  by the snapshot of inputs that determines it, since the actual glyph
  layout is delegated to the external box-model engine;
- the `RefCell` interior mutability is modelled by explicit state
  passing: each mutating method becomes a function `ContextMenu → ...`.
-/

/-- A menu item: `MenuItem` from contextmenu.rs.  `Entry` carries a label,
an optional nerd-font icon name and an opaque action. -/
inductive MenuItem where
  | Entry (label : String) (icon : Option String) (action : ℕ)
  | Separator
deriving DecidableEq, Repr

/-- Host environment read by the widget: font cell metrics, viewport
pixel dimensions (`term_window.dimensions`), and whether
`get_active_pane_or_overlay` returns a pane. -/
structure Env where
  cell_width : ℚ
  cell_height : ℚ
  pixel_width : ℚ
  pixel_height : ℚ
  has_pane : Bool
deriving DecidableEq, Repr

/-- The visual representation cached in `element`: modelled by the
snapshot of state it was computed from (item list, selected row, host
environment), since the concrete `ComputedElement`s are produced by the
external layout engine deterministically from exactly these inputs. -/
structure Visual where
  items : List MenuItem
  selected_row : ℤ
  env : Env
deriving DecidableEq, Repr

/-- Calls the widget makes into the host (`TermWindow`). -/
inductive Effect where
  | CancelModal
  | Dispatch (action : ℕ)
  | InvalidateModal
deriving DecidableEq, Repr

/-- The `ContextMenu` struct: cached visual, selected row (`-1` = none),
item list, cached geometry (menu origin, row height, menu size) and the
fixed initial mouse position. -/
structure ContextMenu where
  element : Option Visual
  selected_row : ℤ
  items : List MenuItem
  menu_x : ℚ
  menu_y : ℚ
  initial_mouse_x : ℚ
  initial_mouse_y : ℚ
  row_height : ℚ
  menu_width : ℚ
  menu_height : ℚ
deriving DecidableEq, Repr

namespace ContextMenu

/-- Model of `ContextMenu::new`: fresh state with no cached element, first row
selected, zeroed geometry, and the anchor mouse position recorded.
The item list is a parameter here because `new` builds it from the mux
tab state (single-pane vs multi-pane); see `default_items_single_pane`
and `default_items_multi_pane` below for the two shapes it produces. -/
def new (items : List MenuItem) (mouse_x mouse_y : ℚ) : ContextMenu :=
  { element := none
    selected_row := 0
    items := items
    menu_x := 0
    menu_y := 0
    initial_mouse_x := mouse_x
    initial_mouse_y := mouse_y
    row_height := 0
    menu_width := 0
    menu_height := 0 }

/-- The item list `ContextMenu::new` builds when the active tab has a
single pane: split entries, separator, tab entries, separator, move-tab
entries. -/
def default_items_single_pane : List MenuItem :=
  [ .Entry "Split Pane Right" (some "cod_split_horizontal") 0
  , .Entry "Split Pane Down" (some "cod_split_vertical") 1
  , .Separator
  , .Entry "New Tab" (some "cod_add") 2
  , .Entry "New Window" (some "cod_window") 3
  , .Separator
  , .Entry "Move Tab Left" (some "cod_arrow_left") 4
  , .Entry "Move Tab Right" (some "cod_arrow_right") 5 ]

/-- The item list `ContextMenu::new` builds when the active tab has more
than one pane: additionally the swap-pane block, the zoom entry and the
close-pane entry, each preceded by a separator. -/
def default_items_multi_pane : List MenuItem :=
  [ .Entry "Split Pane Right" (some "cod_split_horizontal") 0
  , .Entry "Split Pane Down" (some "cod_split_vertical") 1
  , .Separator
  , .Entry "Swap Pane Up" (some "cod_arrow_up") 6
  , .Entry "Swap Pane Down" (some "cod_arrow_down") 7
  , .Entry "Select Pane to Swap" (some "cod_replace") 8
  , .Separator
  , .Entry "Toggle Zoom" (some "cod_screen_full") 9
  , .Separator
  , .Entry "New Tab" (some "cod_add") 2
  , .Entry "New Window" (some "cod_window") 3
  , .Separator
  , .Entry "Move Tab Left" (some "cod_arrow_left") 4
  , .Entry "Move Tab Right" (some "cod_arrow_right") 5
  , .Separator
  , .Entry "Close Pane" (some "cod_close") 10 ]

/-- Rust `f32::min` on non-NaN values: the smaller argument. -/
def fmin (a b : ℚ) : ℚ := if a ≤ b then a else b

/-- Rust `f32::max` on non-NaN values: the larger argument. -/
def fmax (a b : ℚ) : ℚ := if a ≤ b then b else a

/-- Result of `ContextMenu::compute`: the visual plus the five scalar
geometry values `(row_height, menu_x, menu_y, menu_width, menu_height)`. -/
structure Computed where
  visual : Visual
  row_height : ℚ
  menu_x : ℚ
  menu_y : ℚ
  menu_width : ℚ
  menu_height : ℚ
deriving DecidableEq, Repr

/-- Model of `ContextMenu::compute`: row height is the font cell height, menu
width is `25` cell widths, menu height is
`(items.len() * 1.2 + 1.5) * row_height`, and the origin is the anchor
clamped into the viewport via `.min(viewport - size).max(0)`. -/
def compute (env : Env) (items : List MenuItem) (selected_row : ℤ)
    (initial_mouse_x initial_mouse_y : ℚ) : Computed :=
  let row_height := env.cell_height
  let menu_width := 25 * env.cell_width
  let menu_height := ((items.length : ℚ) * (6/5) + 3/2) * row_height
  let menu_x := fmax (fmin initial_mouse_x (env.pixel_width - menu_width)) 0
  let menu_y := fmax (fmin initial_mouse_y (env.pixel_height - menu_height)) 0
  { visual := ⟨items, selected_row, env⟩
    row_height := row_height
    menu_x := menu_x
    menu_y := menu_y
    menu_width := menu_width
    menu_height := menu_height }

/-- Model of `ContextMenu::is_selectable`: in-range and an `Entry`, never a
`Separator`. -/
def is_selectable (items : List MenuItem) (row : ℤ) : Bool :=
  if row < 0 ∨ (items.length : ℤ) ≤ row then
    false
  else
    match items[row.toNat]? with
    | some (.Entry _ _ _) => true
    | _ => false

/-- One bounded unrolling of the scanning loop of `ContextMenu::move_up`
(`while new_row >= 0 && !is_selectable(new_row) { new_row -= 1 }`):
`fuel` bounds the number of iterations; with enough fuel the loop always
exits on its own condition first (each iteration decreases `new_row`, so
at most `new_row + 1` iterations run before it goes negative). -/
def scan_up_fuel (items : List MenuItem) : ℕ → ℤ → ℤ
  | 0, new_row => new_row
  | fuel + 1, new_row =>
      if 0 ≤ new_row ∧ is_selectable items new_row = false then
        scan_up_fuel items fuel (new_row - 1)
      else
        new_row

/-- The scanning loop of `ContextMenu::move_up`, with enough fuel for
the loop to exit on its own condition. -/
def scan_up (items : List MenuItem) (new_row : ℤ) : ℤ :=
  scan_up_fuel items (new_row + 1).toNat new_row

/-- One bounded unrolling of the scanning loop of `ContextMenu::move_down`
(`while new_row < limit && !is_selectable(new_row) { new_row += 1 }`
with `limit = items.len()`): each iteration increases `new_row`, so at
most `limit - new_row` iterations run before the loop exits. -/
def scan_down_fuel (items : List MenuItem) : ℕ → ℤ → ℤ
  | 0, new_row => new_row
  | fuel + 1, new_row =>
      if new_row < (items.length : ℤ) ∧ is_selectable items new_row = false then
        scan_down_fuel items fuel (new_row + 1)
      else
        new_row

/-- The scanning loop of `ContextMenu::move_down`, with enough fuel for
the loop to exit on its own condition. -/
def scan_down (items : List MenuItem) (new_row : ℤ) : ℤ :=
  scan_down_fuel items ((items.length : ℤ) - new_row).toNat new_row

/-- Model of `ContextMenu::move_up`: scan downward from `selected_row - 1` over
separators; adopt the result only if it is `≥ 0`; unconditionally clear
the cached element. -/
def move_up (m : ContextMenu) : ContextMenu :=
  let new_row := scan_up m.items (m.selected_row - 1)
  { m with
    selected_row := if 0 ≤ new_row then new_row else m.selected_row
    element := none }

/-- Model of `ContextMenu::move_down`: scan upward from `selected_row + 1` over
separators; adopt the result only if it is `< items.len()`;
unconditionally clear the cached element. -/
def move_down (m : ContextMenu) : ContextMenu :=
  let new_row := scan_down m.items (m.selected_row + 1)
  { m with
    selected_row := if new_row < (m.items.length : ℤ) then new_row else m.selected_row
    element := none }

/-- Model of `ContextMenu::set_selection`: no-op on non-selectable rows; adopt a
selectable row and clear the cache only when it differs from the current
selection. -/
def set_selection (m : ContextMenu) (row : ℤ) : ContextMenu :=
  if is_selectable m.items row = false then
    m
  else if m.selected_row ≠ row then
    { m with selected_row := row, element := none }
  else
    m

/-- Model of `ContextMenu::activate_selected`: when the selection is a valid
`Entry`, cancel the modal and (when an active pane exists) dispatch the
entry's action; otherwise do nothing.  Returns the host calls made. -/
def activate_selected (env : Env) (m : ContextMenu) : List Effect :=
  if 0 ≤ m.selected_row then
    match m.items[m.selected_row.toNat]? with
    | some (.Entry _ _ action) =>
        .CancelModal :: (if env.has_pane then [.Dispatch action] else [])
    | _ => []
  else []

/-- Model of `ContextMenu::row_at_coords`: hit-test pixel coordinates against the
cached geometry; `-1` means outside. -/
def row_at_coords (m : ContextMenu) (x y : ℚ) : ℤ :=
  if m.row_height ≤ 0 then
    -1
  else if x < m.menu_x ∨ m.menu_x + m.menu_width < x
      ∨ y < m.menu_y ∨ m.menu_y + m.menu_height < y then
    -1
  else
    let padding_top := m.row_height * (3/4)
    let item_height := m.row_height * (6/5)
    let relative_y := y - m.menu_y - padding_top
    if relative_y < 0 then
      0
    else
      let row := ⌊relative_y / item_height⌋
      if 0 ≤ row ∧ row < (m.items.length : ℤ) then row else -1

/-- Mouse event kinds routed by `ContextMenu::mouse_event`. -/
inductive MouseKind where
  | Move
  | Press
  | Other
deriving DecidableEq, Repr

/-- Model of `ContextMenu::mouse_event` (`Modal` impl): hit-test the pointer;
`Move` hovers (`set_selection`) on a valid row; `Press` on a valid row
selects then activates, and outside the menu cancels the modal;
everything else is ignored. -/
def mouse_event (env : Env) (m : ContextMenu) (kind : MouseKind)
    (mouse_x mouse_y : ℚ) : ContextMenu × List Effect :=
  let row := row_at_coords m mouse_x mouse_y
  match kind with
  | .Move =>
      if 0 ≤ row then (set_selection m row, []) else (m, [])
  | .Press =>
      if 0 ≤ row then
        let m2 := set_selection m row
        (m2, activate_selected env m2)
      else
        (m, [.CancelModal])
  | .Other => (m, [])

/-- Key codes distinguished by `ContextMenu::key_down`. -/
inductive MenuKeyCode where
  | Escape
  | Char (c : Char)
  | UpArrow
  | DownArrow
  | Enter
  | OtherKey
deriving DecidableEq, Repr

/-- Modifier sets distinguished by `ContextMenu::key_down`. -/
inductive MenuKeyMods where
  | NONE
  | CTRL
  | OtherMods
deriving DecidableEq, Repr

/-- Model of `ContextMenu::key_down` (`Modal` impl).  Returns the new state, the
host calls made, and the `Ok(bool)` handled flag.  Recognized keys other
than Enter fall through to `invalidate_modal()`; Enter returns early;
unrecognized keys return `false`. -/
def key_down (env : Env) (m : ContextMenu) (key : MenuKeyCode)
    (mods : MenuKeyMods) : ContextMenu × List Effect × Bool :=
  match key, mods with
  | .Escape, .NONE => (m, [.CancelModal, .InvalidateModal], true)
  | .Char 'q', .NONE => (m, [.CancelModal, .InvalidateModal], true)
  | .Char 'c', .CTRL => (m, [.CancelModal, .InvalidateModal], true)
  | .UpArrow, .NONE => (move_up m, [.InvalidateModal], true)
  | .Char 'k', .NONE => (move_up m, [.InvalidateModal], true)
  | .Char 'p', .CTRL => (move_up m, [.InvalidateModal], true)
  | .DownArrow, .NONE => (move_down m, [.InvalidateModal], true)
  | .Char 'j', .NONE => (move_down m, [.InvalidateModal], true)
  | .Char 'n', .CTRL => (move_down m, [.InvalidateModal], true)
  | .Enter, .NONE => (m, activate_selected env m, true)
  | _, _ => (m, [], false)

/-- Model of `ContextMenu::computed_element` (`Modal` impl): when a cached
element is present, return it untouched; otherwise run `compute` and
store the visual together with all five geometry scalars.  The `Bool`
records whether a recomputation happened. -/
def computed_element (m : ContextMenu) (env : Env) :
    ContextMenu × Visual × Bool :=
  match m.element with
  | some v => (m, v, false)
  | none =>
      let c := compute env m.items m.selected_row
        m.initial_mouse_x m.initial_mouse_y
      ({ m with
          element := some c.visual
          row_height := c.row_height
          menu_x := c.menu_x
          menu_y := c.menu_y
          menu_width := c.menu_width
          menu_height := c.menu_height }, c.visual, true)

/-- Model of `ContextMenu::reconfigure` (`Modal` impl): drop the cached element. -/
def reconfigure (m : ContextMenu) : ContextMenu :=
  { m with element := none }

/-- The cached geometry scalars of a menu state, as one tuple
(origin x, origin y, width, height, row height). -/
def geometry (m : ContextMenu) : ℚ × ℚ × ℚ × ℚ × ℚ :=
  (m.menu_x, m.menu_y, m.menu_width, m.menu_height, m.row_height)

/-- Count of recomputations performed by `n` successive draw requests
with no interleaved mutation. -/
def draw_recomputes (env : Env) (m : ContextMenu) : ℕ → ℕ
  | 0 => 0
  | n + 1 =>
      (if (computed_element m env).2.2 then 1 else 0)
        + draw_recomputes env (computed_element m env).1 n

/-- Example host environment: a 10x10 pixel font cell, a 1000x1000 pixel
viewport, and an active pane present. -/
def env_ex : Env := ⟨10, 10, 1000, 1000, true⟩

/-- Example freshly opened menu: single-pane item list, anchored at the
origin. -/
def menu_open : ContextMenu := ContextMenu.new default_items_single_pane 0 0

/-- Example menu after its first draw request: geometry is populated
(origin (0,0), width 250, height 111, row height 10). -/
def menu_drawn : ContextMenu := (computed_element menu_open env_ex).1

/-- The 6-row model of the navigation scenario: selectable entries at
indices 0, 1, 2, 4 and 5, a separator at index 3. -/
def scenario_items : List MenuItem :=
  [ .Entry "a" none 20
  , .Entry "b" none 21
  , .Entry "c" none 22
  , .Separator
  , .Entry "d" none 23
  , .Entry "e" none 24 ]

/-- Example menu over `scenario_items`, initial selection at row 0. -/
def menu_scenario : ContextMenu := ContextMenu.new scenario_items 0 0

end ContextMenu

section Theorems

open ContextMenu

attribute [local semireducible] Rat.mul Rat.add Rat.sub Rat.inv

/-- With sufficient fuel, the move-up scan only stops below zero or on
a selectable row. -/
theorem scan_up_fuel_spec (items : List MenuItem) :
    ∀ (fuel : ℕ) (r : ℤ), (r + 1).toNat ≤ fuel →
      scan_up_fuel items fuel r < 0
        ∨ is_selectable items (scan_up_fuel items fuel r) = true := by
  intro fuel
  induction fuel with
  | zero =>
      intro r hr
      left
      simp only [scan_up_fuel]
      omega
  | succ fuel ih =>
      intro r hr
      rw [scan_up_fuel]
      split
      · next hc => exact ih (r - 1) (by omega)
      · next hc =>
          rcases Decidable.not_and_iff_or_not.mp hc with h1 | h2
          · left; omega
          · right; simpa using h2

/-- The move-up scan only stops below zero or on a selectable row. -/
theorem scan_up_spec (items : List MenuItem) (r : ℤ) :
    scan_up items r < 0 ∨ is_selectable items (scan_up items r) = true :=
  scan_up_fuel_spec items (r + 1).toNat r le_rfl

/-- With sufficient fuel, the move-down scan only stops at the row count
or on a selectable row. -/
theorem scan_down_fuel_spec (items : List MenuItem) :
    ∀ (fuel : ℕ) (r : ℤ), ((items.length : ℤ) - r).toNat ≤ fuel →
      (items.length : ℤ) ≤ scan_down_fuel items fuel r
        ∨ is_selectable items (scan_down_fuel items fuel r) = true := by
  intro fuel
  induction fuel with
  | zero =>
      intro r hr
      left
      simp only [scan_down_fuel]
      omega
  | succ fuel ih =>
      intro r hr
      rw [scan_down_fuel]
      split
      · next hc =>
          have hc1 := hc.1
          exact ih (r + 1) (by omega)
      · next hc =>
          rcases Decidable.not_and_iff_or_not.mp hc with h1 | h2
          · left; omega
          · right; simpa using h2

/-- The move-down scan only stops at the row count or on a selectable
row. -/
theorem scan_down_spec (items : List MenuItem) (r : ℤ) :
    (items.length : ℤ) ≤ scan_down items r
      ∨ is_selectable items (scan_down items r) = true :=
  scan_down_fuel_spec items ((items.length : ℤ) - r).toNat r le_rfl

/-- A selectable row is in range and is not a separator. -/
theorem is_selectable_spec (items : List MenuItem) (r : ℤ)
    (h : is_selectable items r = true) :
    0 ≤ r ∧ r < (items.length : ℤ) ∧ items[r.toNat]? ≠ some MenuItem.Separator := by
  unfold is_selectable at h
  split at h
  · simp at h
  · next hc =>
      push_neg at hc
      refine ⟨by omega, by omega, ?_⟩
      intro hx
      rw [hx] at h
      simp at h

/-- A selectable row holds an entry, and its index is non-negative. -/
theorem is_selectable_entry (items : List MenuItem) (r : ℤ)
    (h : is_selectable items r = true) :
    0 ≤ r ∧ ∃ label icon action, items[r.toNat]? = some (.Entry label icon action) := by
  unfold is_selectable at h
  split at h
  · simp at h
  · next hc =>
      push_neg at hc
      refine ⟨by omega, ?_⟩
      rcases hx : items[r.toNat]? with _ | x
      · rw [hx] at h; simp at h
      · cases x with
        | Entry label icon action => exact ⟨label, icon, action, rfl⟩
        | Separator => rw [hx] at h; simp at h

/-- A row holding a separator is never selectable. -/
theorem separator_not_selectable (items : List MenuItem) (r : ℤ)
    (h : items[r.toNat]? = some MenuItem.Separator) :
    is_selectable items r = false := by
  unfold is_selectable
  split
  · rfl
  · rw [h]

/-- C3: for every selection state satisfying the selection invariant
(the selected row is a selectable entry), `move_up` and `move_down`
leave the selection inside `[0, N-1]` and never on a `Separator` row. -/
theorem moves_preserve_selection_invariant (m : ContextMenu)
    (h : is_selectable m.items m.selected_row = true) :
    (0 ≤ (move_up m).selected_row ∧ (move_up m).selected_row < (m.items.length : ℤ)
      ∧ m.items[(move_up m).selected_row.toNat]? ≠ some MenuItem.Separator)
    ∧ (0 ≤ (move_down m).selected_row ∧ (move_down m).selected_row < (m.items.length : ℤ)
      ∧ m.items[(move_down m).selected_row.toNat]? ≠ some MenuItem.Separator) := by
  constructor
  · have hu := scan_up_spec m.items (m.selected_row - 1)
    simp only [move_up]
    split
    · next hge =>
        have hsel : is_selectable m.items (scan_up m.items (m.selected_row - 1)) = true := by
          rcases hu with h1 | h1
          · omega
          · exact h1
        exact is_selectable_spec _ _ hsel
    · exact is_selectable_spec _ _ h
  · have hd := scan_down_spec m.items (m.selected_row + 1)
    simp only [move_down]
    split
    · next hlt =>
        have hsel : is_selectable m.items (scan_down m.items (m.selected_row + 1)) = true := by
          rcases hd with h1 | h1
          · omega
          · exact h1
        exact is_selectable_spec _ _ hsel
    · exact is_selectable_spec _ _ h

/-- Witness for C3: on the drawn example menu, whose selection 0 is
selectable, both moves keep the invariant. -/
theorem moves_preserve_selection_invariant_witness :
    (0 ≤ (move_up menu_drawn).selected_row
      ∧ (move_up menu_drawn).selected_row < (menu_drawn.items.length : ℤ)
      ∧ menu_drawn.items[(move_up menu_drawn).selected_row.toNat]? ≠ some MenuItem.Separator)
    ∧ (0 ≤ (move_down menu_drawn).selected_row
      ∧ (move_down menu_drawn).selected_row < (menu_drawn.items.length : ℤ)
      ∧ menu_drawn.items[(move_down menu_drawn).selected_row.toNat]? ≠ some MenuItem.Separator) :=
  moves_preserve_selection_invariant menu_drawn (by decide)

/-- C6: `set_selection` with a non-selectable or out-of-range row, or
with the currently selected row, is a complete no-op: the whole state
(selection, cached visual and geometry) is unchanged. -/
theorem set_selection_noop (m : ContextMenu) (row : ℤ)
    (h : is_selectable m.items row = false ∨ row = m.selected_row) :
    set_selection m row = m := by
  unfold set_selection
  rcases h with h | h
  · rw [if_pos h]
  · by_cases hs : is_selectable m.items row = false
    · rw [if_pos hs]
    · rw [if_neg hs, if_neg (by simp [h])]

/-- Witness for C6: selecting the separator row 2 of the drawn example
menu changes nothing. -/
theorem set_selection_noop_witness : set_selection menu_drawn 2 = menu_drawn :=
  set_selection_noop menu_drawn 2 (Or.inl (by decide))

/-- Repeated draws of a state whose cache is present never recompute. -/
theorem draw_recomputes_of_some (env : Env) (m : ContextMenu) (v : Visual)
    (h : m.element = some v) : ∀ n, draw_recomputes env m n = 0 := by
  intro n
  induction n with
  | zero => rfl
  | succ n ih =>
      have hc : computed_element m env = (m, v, false) := by
        unfold computed_element
        rw [h]
      rw [draw_recomputes, hc]
      simpa using ih

/-- Between two mutations, any number of draw requests recomputes at
most once. -/
theorem draw_recomputes_le_one (env : Env) (m : ContextMenu) (n : ℕ) :
    draw_recomputes env m n ≤ 1 := by
  cases n with
  | zero => simp [draw_recomputes]
  | succ n =>
      cases hm : m.element with
      | some v =>
          have h0 := draw_recomputes_of_some env m v hm (n + 1)
          omega
      | none =>
          have hc : (computed_element m env).1.element
              = some (compute env m.items m.selected_row
                  m.initial_mouse_x m.initial_mouse_y).visual := by
            unfold computed_element
            rw [hm]
          have h0 := draw_recomputes_of_some env (computed_element m env).1 _ hc n
          rw [draw_recomputes, h0]
          split <;> omega

/-- C7: a draw request returns the cached visual untouched when the
cache is present, recomputes and stores visual plus geometry exactly
when it is absent, and repeated draws between mutations recompute at
most once. -/
theorem computed_element_cache_behavior (m : ContextMenu) (env : Env) :
    ((computed_element m env).2.2 = true ↔ m.element = none)
    ∧ (∀ v, m.element = some v → computed_element m env = (m, v, false))
    ∧ (m.element = none →
        computed_element m env =
          (let c := compute env m.items m.selected_row m.initial_mouse_x m.initial_mouse_y
           ({ m with
                element := some c.visual
                row_height := c.row_height
                menu_x := c.menu_x
                menu_y := c.menu_y
                menu_width := c.menu_width
                menu_height := c.menu_height }, c.visual, true)))
    ∧ (∀ n : ℕ, draw_recomputes env m n ≤ 1) := by
  refine ⟨?_, ?_, ?_, fun n => draw_recomputes_le_one env m n⟩
  · cases hm : m.element with
    | some v => simp [computed_element, hm]
    | none => simp [computed_element, hm]
  · intro v hv
    unfold computed_element
    rw [hv]
  · intro hv
    unfold computed_element
    rw [hv]

/-- Witness for C7 at the drawn example menu and example environment. -/
theorem computed_element_cache_behavior_witness :
    ((computed_element menu_drawn env_ex).2.2 = true ↔ menu_drawn.element = none)
    ∧ (∀ v, menu_drawn.element = some v
        → computed_element menu_drawn env_ex = (menu_drawn, v, false))
    ∧ (menu_drawn.element = none →
        computed_element menu_drawn env_ex =
          (let c := compute env_ex menu_drawn.items menu_drawn.selected_row
              menu_drawn.initial_mouse_x menu_drawn.initial_mouse_y
           ({ menu_drawn with
                element := some c.visual
                row_height := c.row_height
                menu_x := c.menu_x
                menu_y := c.menu_y
                menu_width := c.menu_width
                menu_height := c.menu_height }, c.visual, true)))
    ∧ (∀ n : ℕ, draw_recomputes env_ex menu_drawn n ≤ 1) :=
  computed_element_cache_behavior menu_drawn env_ex

/-- C8: pressing Enter while the selection is the sentinel `-1` leaves
the state unchanged, makes no host call (no dispatch, no session close)
and still reports the key as handled. -/
theorem enter_with_sentinel_noop (env : Env) (m : ContextMenu)
    (h : m.selected_row = -1) :
    key_down env m .Enter .NONE = (m, [], true) := by
  show (m, activate_selected env m, true) = (m, [], true)
  unfold activate_selected
  rw [h]
  norm_num

/-- Witness for C8: Enter on the drawn example menu with the sentinel
selection. -/
theorem enter_with_sentinel_noop_witness :
    key_down env_ex { menu_drawn with selected_row := -1 } .Enter .NONE
      = ({ menu_drawn with selected_row := -1 }, [], true) :=
  enter_with_sentinel_noop env_ex { menu_drawn with selected_row := -1 } rfl

/-- C9: on the 6-row model with entries at indices 0, 1, 2, 4, 5 and a
separator at index 3, three `move_down` calls from selection 0 visit
1, then 2, then 4, skipping the separator. -/
theorem move_down_skips_separator_scenario :
    (move_down menu_scenario).selected_row = 1
    ∧ (move_down (move_down menu_scenario)).selected_row = 2
    ∧ (move_down (move_down (move_down menu_scenario))).selected_row = 4 := by
  decide

/-- C10: `move_up` and `move_down` always discard the cached visual,
even when the selection cannot change, so the next draw request always
recomputes. -/
theorem moves_always_invalidate (m : ContextMenu) (env : Env) :
    (move_up m).element = none ∧ (move_down m).element = none
    ∧ (computed_element (move_up m) env).2.2 = true
    ∧ (computed_element (move_down m) env).2.2 = true :=
  ⟨rfl, rfl, rfl, rfl⟩

/-- Rust min on non-NaN values agrees with the order-theoretic min. -/
theorem fmin_eq_min (a b : ℚ) : fmin a b = min a b := by
  rw [fmin, min_def]

/-- Rust max on non-NaN values agrees with the order-theoretic max. -/
theorem fmax_eq_max (a b : ℚ) : fmax a b = max a b := by
  rw [fmax, max_def]

/-- C4: whenever the viewport is at least as large as the computed menu,
the computed origin is the anchor clamped into
`[0, viewport - menu]` on each axis, and in particular lies in that
interval. -/
theorem compute_origin_clamped (env : Env) (items : List MenuItem) (sel : ℤ)
    (ax ay : ℚ)
    (hw : (compute env items sel ax ay).menu_width ≤ env.pixel_width)
    (hh : (compute env items sel ax ay).menu_height ≤ env.pixel_height) :
    ((compute env items sel ax ay).menu_x
        = max 0 (min ax (env.pixel_width - (compute env items sel ax ay).menu_width))
      ∧ 0 ≤ (compute env items sel ax ay).menu_x
      ∧ (compute env items sel ax ay).menu_x
          ≤ env.pixel_width - (compute env items sel ax ay).menu_width)
    ∧ ((compute env items sel ax ay).menu_y
        = max 0 (min ay (env.pixel_height - (compute env items sel ax ay).menu_height))
      ∧ 0 ≤ (compute env items sel ax ay).menu_y
      ∧ (compute env items sel ax ay).menu_y
          ≤ env.pixel_height - (compute env items sel ax ay).menu_height) := by
  simp only [compute] at hw hh ⊢
  rw [fmin_eq_min, fmin_eq_min, fmax_eq_max, fmax_eq_max]
  have h1 : (0:ℚ) ≤ env.pixel_width - 25 * env.cell_width := by linarith
  have h2 : (0:ℚ) ≤ env.pixel_height
      - ((items.length : ℚ) * (6/5) + 3/2) * env.cell_height := by linarith
  refine ⟨⟨max_comm _ 0, le_max_right _ 0, max_le (min_le_right _ _) h1⟩,
    max_comm _ 0, le_max_right _ 0, max_le (min_le_right _ _) h2⟩

/-- Witness for C4: the example environment fits the single-pane menu
(250x111 in a 1000x1000 viewport), anchored at (980, 500). -/
theorem compute_origin_clamped_witness :
    (((compute env_ex default_items_single_pane 0 980 500).menu_x
        = max 0 (min 980 (env_ex.pixel_width
            - (compute env_ex default_items_single_pane 0 980 500).menu_width))
      ∧ 0 ≤ (compute env_ex default_items_single_pane 0 980 500).menu_x
      ∧ (compute env_ex default_items_single_pane 0 980 500).menu_x
          ≤ env_ex.pixel_width
            - (compute env_ex default_items_single_pane 0 980 500).menu_width)
    ∧ ((compute env_ex default_items_single_pane 0 980 500).menu_y
        = max 0 (min 500 (env_ex.pixel_height
            - (compute env_ex default_items_single_pane 0 980 500).menu_height))
      ∧ 0 ≤ (compute env_ex default_items_single_pane 0 980 500).menu_y
      ∧ (compute env_ex default_items_single_pane 0 980 500).menu_y
          ≤ env_ex.pixel_height
            - (compute env_ex default_items_single_pane 0 980 500).menu_height)) :=
  compute_origin_clamped env_ex default_items_single_pane 0 980 500
    (by decide) (by decide)

/-- C5 amended: a state change discards only the cached visual; the five
geometry scalars persist unchanged until the next draw request, which
then stores the visual and the geometry together, both computed from the
same snapshot of state. -/
theorem invalidation_keeps_geometry (m : ContextMenu) (env : Env) (row : ℤ) :
    ((move_up m).element = none ∧ geometry (move_up m) = geometry m)
    ∧ ((move_down m).element = none ∧ geometry (move_down m) = geometry m)
    ∧ ((reconfigure m).element = none ∧ geometry (reconfigure m) = geometry m)
    ∧ geometry (set_selection m row) = geometry m
    ∧ (let d := computed_element (reconfigure m) env
       let c := compute env m.items m.selected_row m.initial_mouse_x m.initial_mouse_y
       d.1.element = some c.visual
         ∧ geometry d.1 = (c.menu_x, c.menu_y, c.menu_width, c.menu_height, c.row_height)
         ∧ c.visual = ⟨m.items, m.selected_row, env⟩) := by
  refine ⟨⟨rfl, rfl⟩, ⟨rfl, rfl⟩, ⟨rfl, rfl⟩, ?_, rfl, rfl, rfl⟩
  unfold set_selection
  split
  · rfl
  · split <;> rfl

/-- Counterexample to C5 as stated: `move_down` on the drawn example
menu discards the cached visual but not the cached geometry — all five
scalars survive and the hit tester still resolves rows from them, so the
invalidation is partial, not total. -/
theorem invalidation_partial_counterexample :
    (move_down menu_drawn).element = none
    ∧ geometry (move_down menu_drawn) = geometry menu_drawn
    ∧ geometry (move_down menu_drawn) = (0, 0, 250, 111, 10)
    ∧ row_at_coords (move_down menu_drawn) 5 8 = 0 := by
  decide

/-- C1 amended: a pointer press whose coordinates hit a separator row
leaves the selection unchanged, but is not outside-equivalent: the
session is closed and, when an active pane exists, the action of the
still-selected entry is dispatched. -/
theorem press_on_separator_activates_previous (env : Env) (m : ContextMenu)
    (x y : ℚ)
    (hrow : 0 ≤ row_at_coords m x y)
    (hsep : m.items[(row_at_coords m x y).toNat]? = some MenuItem.Separator)
    (hsel : is_selectable m.items m.selected_row = true) :
    (mouse_event env m .Press x y).1 = m
    ∧ ∃ label icon action,
        m.items[m.selected_row.toNat]? = some (.Entry label icon action)
        ∧ (mouse_event env m .Press x y).2
            = .CancelModal :: (if env.has_pane then [.Dispatch action] else []) := by
  have hns : is_selectable m.items (row_at_coords m x y) = false :=
    separator_not_selectable _ _ hsep
  have hset : set_selection m (row_at_coords m x y) = m := by
    unfold set_selection
    rw [if_pos hns]
  have hme : mouse_event env m .Press x y = (m, activate_selected env m) := by
    show (if 0 ≤ row_at_coords m x y then
        (set_selection m (row_at_coords m x y),
          activate_selected env (set_selection m (row_at_coords m x y)))
      else (m, [Effect.CancelModal])) = (m, activate_selected env m)
    rw [if_pos hrow, hset]
  obtain ⟨hge0, label, icon, action, hentry⟩ := is_selectable_entry _ _ hsel
  refine ⟨by rw [hme], label, icon, action, hentry, ?_⟩
  rw [hme]
  show activate_selected env m = _
  unfold activate_selected
  rw [if_pos hge0, hentry]

/-- Witness for C1 amended: press at (5, 32) on the drawn example menu
hits separator row 2 and dispatches the selected entry's action. -/
theorem press_on_separator_activates_previous_witness :
    (mouse_event env_ex menu_drawn .Press 5 32).1 = menu_drawn
    ∧ ∃ label icon action,
        menu_drawn.items[menu_drawn.selected_row.toNat]?
            = some (.Entry label icon action)
        ∧ (mouse_event env_ex menu_drawn .Press 5 32).2
            = .CancelModal :: (if env_ex.has_pane then [.Dispatch action] else []) :=
  press_on_separator_activates_previous env_ex menu_drawn 5 32
    (by decide) (by decide) (by decide)

/-- Counterexample to C1 as stated: on the drawn example menu the press
at (5, 32) maps to the separator row 2, yet the session is closed and
the previously selected entry's action 0 is dispatched — the press is
not outside-equivalent. -/
theorem press_on_separator_counterexample :
    row_at_coords menu_drawn 5 32 = 2
    ∧ menu_drawn.items[(2:ℕ)]? = some MenuItem.Separator
    ∧ mouse_event env_ex menu_drawn .Press 5 32
        = (menu_drawn, [.CancelModal, .Dispatch 0]) := by
  decide

/-- C2 amended: with cached geometry whose height satisfies the layout
formula, the hit tester returns Outside (`-1`) for every point strictly
outside the menu rectangle; a point inside the rectangle yields a row in
`[0, N-1]` exactly when it lies above the bottom chrome
(`y - originY < (0.75 + N * 1.2) * rowHeight`), and Outside when it
lies in the bottom chrome. -/
theorem row_at_coords_range (m : ContextMenu) (x y : ℚ)
    (hrh : 0 < m.row_height)
    (hh : m.menu_height = ((m.items.length : ℚ) * (6/5) + 3/2) * m.row_height)
    (hN : 1 ≤ m.items.length) :
    ((x < m.menu_x ∨ m.menu_x + m.menu_width < x
        ∨ y < m.menu_y ∨ m.menu_y + m.menu_height < y) →
      row_at_coords m x y = -1)
    ∧ (m.menu_x ≤ x → x ≤ m.menu_x + m.menu_width
        → m.menu_y ≤ y → y ≤ m.menu_y + m.menu_height →
        ((y - m.menu_y < (3/4 + (m.items.length : ℚ) * (6/5)) * m.row_height →
            0 ≤ row_at_coords m x y ∧ row_at_coords m x y < (m.items.length : ℤ))
          ∧ ((3/4 + (m.items.length : ℚ) * (6/5)) * m.row_height ≤ y - m.menu_y →
            row_at_coords m x y = -1))) := by
  have hrh' : ¬ m.row_height ≤ 0 := not_le.mpr hrh
  have hih : 0 < m.row_height * (6/5) := by
    have : (0:ℚ) < 6/5 := by norm_num
    exact mul_pos hrh this
  simp only [row_at_coords, if_neg hrh']
  constructor
  · intro hout
    rw [if_pos hout]
  · intro hx1 hx2 hy1 hy2
    have hin : ¬ (x < m.menu_x ∨ m.menu_x + m.menu_width < x
        ∨ y < m.menu_y ∨ m.menu_y + m.menu_height < y) := by
      push_neg
      exact ⟨hx1, hx2, hy1, hy2⟩
    rw [if_neg hin]
    constructor
    · intro hband
      by_cases hry : y - m.menu_y - m.row_height * (3/4) < 0
      · rw [if_pos hry]
        refine ⟨le_refl 0, ?_⟩
        omega
      · rw [if_neg hry]
        push_neg at hry
        have h0 : 0 ≤ ⌊(y - m.menu_y - m.row_height * (3/4)) / (m.row_height * (6/5))⌋ :=
          Int.floor_nonneg.mpr (div_nonneg hry (le_of_lt hih))
        have hrel : y - m.menu_y - m.row_height * (3/4)
            < (m.items.length : ℚ) * (m.row_height * (6/5)) := by nlinarith
        have hlt : ⌊(y - m.menu_y - m.row_height * (3/4)) / (m.row_height * (6/5))⌋
            < (m.items.length : ℤ) := by
          apply Int.floor_lt.mpr
          push_cast
          exact (div_lt_iff₀ hih).mpr hrel
        rw [if_pos ⟨h0, hlt⟩]
        exact ⟨h0, hlt⟩
    · intro hchrome
      have hrel : (m.items.length : ℚ) * (m.row_height * (6/5))
          ≤ y - m.menu_y - m.row_height * (3/4) := by nlinarith
      have hry : ¬ (y - m.menu_y - m.row_height * (3/4) < 0) := by
        push_neg
        have hNq : (0:ℚ) ≤ (m.items.length : ℚ) := by positivity
        nlinarith
      rw [if_neg hry]
      have hge : (m.items.length : ℤ)
          ≤ ⌊(y - m.menu_y - m.row_height * (3/4)) / (m.row_height * (6/5))⌋ := by
        apply Int.le_floor.mpr
        push_cast
        exact (le_div_iff₀ hih).mpr hrel
      rw [if_neg (by intro hc; omega)]

/-- Witness for C2 amended, at the drawn example menu: row height 10,
8 items, height matching the layout formula. -/
theorem row_at_coords_range_witness :
    ((5 < menu_drawn.menu_x ∨ menu_drawn.menu_x + menu_drawn.menu_width < 5
        ∨ 50 < menu_drawn.menu_y ∨ menu_drawn.menu_y + menu_drawn.menu_height < 50) →
      row_at_coords menu_drawn 5 50 = -1)
    ∧ (menu_drawn.menu_x ≤ 5 → 5 ≤ menu_drawn.menu_x + menu_drawn.menu_width
        → menu_drawn.menu_y ≤ 50 → 50 ≤ menu_drawn.menu_y + menu_drawn.menu_height →
        ((50 - menu_drawn.menu_y
            < (3/4 + (menu_drawn.items.length : ℚ) * (6/5)) * menu_drawn.row_height →
            0 ≤ row_at_coords menu_drawn 5 50
              ∧ row_at_coords menu_drawn 5 50 < (menu_drawn.items.length : ℤ))
          ∧ ((3/4 + (menu_drawn.items.length : ℚ) * (6/5)) * menu_drawn.row_height
              ≤ 50 - menu_drawn.menu_y →
            row_at_coords menu_drawn 5 50 = -1))) :=
  row_at_coords_range menu_drawn 5 50 (by decide) (by decide) (by decide)

/-- Counterexample to C2 as stated: the point (5, 104) lies inside the
drawn example menu's rectangle (origin (0,0), 250 x 111) yet the hit
tester returns `-1`, not a row in `[0, 7]` — it falls in the bottom
chrome below the 8 rows. -/
theorem row_inside_rect_counterexample :
    menu_drawn.menu_x ≤ 5 ∧ (5:ℚ) ≤ menu_drawn.menu_x + menu_drawn.menu_width
    ∧ menu_drawn.menu_y ≤ 104 ∧ (104:ℚ) ≤ menu_drawn.menu_y + menu_drawn.menu_height
    ∧ menu_drawn.items.length = 8
    ∧ row_at_coords menu_drawn 5 104 = -1 := by
  decide

end Theorems
